import Mathlib

/-!
Shallow embedding of the dead-reckoning position predictor from
`loc_predict_func.py` and `utils/location_functions.py`.

Numeric model: the Python code computes with IEEE doubles; here every
quantity is an exact rational (`ℚ`).  The transcendental primitives the
code calls (`math.cos`/`math.sin` composed with `math.radians`, the
`degrees ∘ atan2` step of `_bearing`, and the external
`geopy.distance.geodesic(..).meters` provider) are not algebraic over ℚ,
so they are carried as explicit function parameters in a `GeoCtx`
context, exactly as the spec treats geodesic distance ("external
capability").  Every other operation of the source (the arithmetic, the
clamping, the branching, the endpoint selection) is embedded literally.

Timestamps: the Python history entries carry ISO-8601 strings parsed
with `datetime.fromisoformat`; the subtraction
`(fromisoformat t2 - fromisoformat t1).total_seconds()` is modelled by
carrying the timestamp directly as a rational number of seconds, so the
elapsed time is the plain difference of the two fields.

Failure model: the parametric predictors are total Python functions
(no `raise`, no validation), so they are total Lean functions.
`predict_future_dist_with_history` can raise: `history[0]` /
`history[-1]` raise `IndexError` on an empty list, and
`... / historytime` raises `ZeroDivisionError` when the elapsed time is
exactly zero; the embedding therefore returns an `Option`, `none` on
exactly those two paths.
-/

/-- Context of transcendental / external primitives consumed by the
predictor.  `cosd θ` stands for `math.cos(math.radians(θ))` and
`sind θ` for `math.sin(math.radians(θ))` (θ in degrees); `atan2deg x y`
stands for `math.degrees(math.atan2(x, y))`; `dist lat1 lon1 lat2 lon2`
stands for `geodesic((lat1, lon1), (lat2, lon2)).meters`. -/
structure GeoCtx where
  cosd : ℚ → ℚ
  sind : ℚ → ℚ
  atan2deg : ℚ → ℚ → ℚ
  dist : ℚ → ℚ → ℚ → ℚ → ℚ

/-- Python's float modulo `a % b`: the remainder with the sign of `b`,
`a - b * floor(a / b)`.  Used by `_bearing` to normalize into [0,360). -/
def pymod (a b : ℚ) : ℚ :=
  a - b * (Int.floor (a / b) : ℚ)

/-- Embedding of `predict_future_distance` from `loc_predict_func.py`
(lines 4-58).  Arguments and tuple layout follow the source:
`(current_long, current_lat, target_long, target_lat, direction, speed,
time)` in, `(future_longitude, future_latitude, distance_traveled,
percent_complete)` out.  Speed is in km/s (`speed_ms = speed * 1000`). -/
def predict_future_distance (ctx : GeoCtx)
    (current_long current_lat target_long target_lat direction speed time : ℚ) :
    ℚ × ℚ × ℚ × ℚ :=
  let speed_ms := speed * 1000
  let distance_traveled := speed_ms * time
  let lat_change := (distance_traveled * ctx.cosd direction) / 111111
  let lon_change := (distance_traveled * ctx.sind direction) / (111111 * ctx.cosd current_lat)
  let future_latitude := current_lat + lat_change
  let future_longitude := current_long + lon_change
  let total_distance := ctx.dist current_lat current_long target_lat target_long
  let remaining_distance := ctx.dist future_latitude future_longitude target_lat target_long
  let percent_complete :=
    if 0 < total_distance then
      max 0 (min 100 (((total_distance - remaining_distance) / total_distance) * 100))
    else 100
  (future_longitude, future_latitude, distance_traveled, percent_complete)

/-- Embedding of `predict_future_dist_with_dir_and_speed` from
`utils/location_functions.py` (lines 5-50).  Identical to
`predict_future_distance` except the speed unit: km/h, so
`distance_traveled = ((speed * 1000) / 3600) * time`. -/
def predict_future_dist_with_dir_and_speed (ctx : GeoCtx)
    (current_long current_lat target_long target_lat direction speed time : ℚ) :
    ℚ × ℚ × ℚ × ℚ :=
  let distance_traveled := ((speed * 1000) / 3600) * time
  let lat_change := (distance_traveled * ctx.cosd direction) / 111111
  let lon_change := (distance_traveled * ctx.sind direction) / (111111 * ctx.cosd current_lat)
  let Predicted_latitude := current_lat + lat_change
  let Predicted_longitude := current_long + lon_change
  let total_distance := ctx.dist current_lat current_long target_lat target_long
  let remaining_distance := ctx.dist Predicted_latitude Predicted_longitude target_lat target_long
  let percent_complete :=
    if 0 < total_distance then
      max 0 (min 100 (((total_distance - remaining_distance) / total_distance) * 100))
    else 100
  (Predicted_longitude, Predicted_latitude, distance_traveled, percent_complete)

/-- Embedding of `_bearing(p1, p2)` from `utils/location_functions.py`
(lines 54-60).  The source converts the four coordinates to radians and
applies `sin`/`cos`; since `radians` is linear, `sin(dlon)` with
`dlon = radians lon2 - radians lon1` is `sind (lon2 - lon1)`, and
`math.degrees(math.atan2 x y)` is `atan2deg x y`.  The normalization
`(brng + 360) % 360` is Python float modulo. -/
def bearing (ctx : GeoCtx) (lat1 lon1 lat2 lon2 : ℚ) : ℚ :=
  let x := ctx.sind (lon2 - lon1) * ctx.cosd lat2
  let y := ctx.cosd lat1 * ctx.sind lat2 - ctx.sind lat1 * ctx.cosd lat2 * ctx.cosd (lon2 - lon1)
  let brng := ctx.atan2deg x y
  pymod (brng + 360) 360

/-- A history entry `(timestamp_seconds, latitude, longitude)`, the
shape the source reads with `history[i][0] / [1] / [2]`. -/
abbrev HistEntry : Type := ℚ × ℚ × ℚ

/-- Embedding of `predict_future_dist_with_history` from
`utils/location_functions.py` (lines 63-119).  Reads only `history[0]`
and `history[-1]` (`head?` / `getLast?`); `none` models the
`IndexError` on an empty list and the `ZeroDivisionError` of
`speed = geodesic(...) / historytime` when `historytime = 0`. -/
def predict_future_dist_with_history (ctx : GeoCtx) (history : List HistEntry)
    (target_long target_lat time : ℚ) : Option (ℚ × ℚ × ℚ × ℚ) :=
  match history.head?, history.getLast? with
  | some h0, some hl =>
    let lat1 := h0.2.1
    let lon1 := h0.2.2
    let lat2 := hl.2.1
    let lon2 := hl.2.2
    let current_lat := hl.2.1
    let current_long := hl.2.2
    let direction := bearing ctx lat1 lon1 lat2 lon2
    let historytime := hl.1 - h0.1
    if historytime = 0 then none
    else
      let speed := ctx.dist lat1 lon1 lat2 lon2 / historytime
      let distance_traveled := speed * time
      let lat_change := (distance_traveled * ctx.cosd direction) / 111111
      let lon_change := (distance_traveled * ctx.sind direction) / (111111 * ctx.cosd current_lat)
      let Predicted_latitude := current_lat + lat_change
      let Predicted_longitude := current_long + lon_change
      let total_distance := ctx.dist current_lat current_long target_lat target_long
      let remaining_distance := ctx.dist Predicted_latitude Predicted_longitude target_lat target_long
      let percent_complete :=
        if 0 < total_distance then
          max 0 (min 100 (((total_distance - remaining_distance) / total_distance) * 100))
        else 100
      some (Predicted_longitude, Predicted_latitude, distance_traveled, percent_complete)
  | _, _ => none

/-- The projection-and-percent pipeline shared (textually inlined) by all
three predictor variants: given a planar displacement `distance_traveled`
along `direction`, project from the current point and compute the
clamped completion percentage toward the target.  Each source variant
differs only in how `distance_traveled` is produced. -/
def predictFromDistance (ctx : GeoCtx)
    (current_long current_lat target_long target_lat direction distance_traveled : ℚ) :
    ℚ × ℚ × ℚ × ℚ :=
  let lat_change := (distance_traveled * ctx.cosd direction) / 111111
  let lon_change := (distance_traveled * ctx.sind direction) / (111111 * ctx.cosd current_lat)
  let Predicted_latitude := current_lat + lat_change
  let Predicted_longitude := current_long + lon_change
  let total_distance := ctx.dist current_lat current_long target_lat target_long
  let remaining_distance := ctx.dist Predicted_latitude Predicted_longitude target_lat target_long
  let percent_complete :=
    if 0 < total_distance then
      max 0 (min 100 (((total_distance - remaining_distance) / total_distance) * 100))
    else 100
  (Predicted_longitude, Predicted_latitude, distance_traveled, percent_complete)

/-- The spec's projection primitive, written from the spec's words
(§4.1): `GeoPoint(origin.lat + distance*cos(heading)/K,
origin.lon + distance*sin(heading)/(K*cos(radians(origin.lat))))`, with
the meters-per-degree constant `K` as an explicit parameter so that
"a single constant used consistently" is checkable. -/
def projectSpec (ctx : GeoCtx) (K origin_lat origin_lon heading_deg distance_m : ℚ) : ℚ × ℚ :=
  (origin_lat + distance_m * ctx.cosd heading_deg / K,
   origin_lon + distance_m * ctx.sind heading_deg / (K * ctx.cosd origin_lat))

/-- Elapsed seconds between the last and first entries of a track
(`0` for an empty or single-entry track). -/
def histElapsed (history : List HistEntry) : ℚ :=
  ((history.getLast?.map Prod.fst).getD 0) - ((history.head?.map Prod.fst).getD 0)

/-- A concrete context used to instantiate witnesses and
counterexamples: cosine constantly 1, sine constantly 0, atan2
constantly 0, geodesic distance constantly 0. -/
def ctx0 : GeoCtx :=
  { cosd := fun _ => 1
    sind := fun _ => 0
    atan2deg := fun _ _ => 0
    dist := fun _ _ _ _ => 0 }

/-- A context with a realistically tiny cosine at latitude 89.99999°
(`cos(radians(89.99999)) ≈ 1.745e-7`, modelled as `1/5729578`), used to
evaluate the predictor near the pole. -/
def ctxPole : GeoCtx :=
  { cosd := fun q => if q = 8999999 / 100000 then 1 / 5729578 else 1
    sind := fun _ => 1
    atan2deg := fun _ _ => 0
    dist := fun _ _ _ _ => 0 }

/-- Helper: the `getLast?` of a track written as `first :: mid ++ [last]` is `last` (`history[-1]` of the source). -/
lemma getLast_of_sandwich (first last : HistEntry) (mid : List HistEntry) :
    (first :: mid ++ [last]).getLast? = some last :=
  List.getLast?_concat _

/-- Helper: the `head?` of a track written as `first :: mid ++ [last]` is `first` (`history[0]` of the source). -/
lemma head_of_sandwich (first last : HistEntry) (mid : List HistEntry) :
    (first :: mid ++ [last]).head? = some first := by
  rw [List.cons_append, List.head?_cons]

/-- Helper: on a track with strictly increasing timestamps, the first timestamp is below the last one. -/
lemma chain_head_lt_last (first last : HistEntry) (mid : List HistEntry)
    (h : List.Chain' (fun a b : HistEntry => a.1 < b.1) (first :: mid ++ [last])) :
    first.1 < last.1 := by
  induction mid generalizing first with
  | nil => exact (List.chain'_cons.1 h).1
  | cons m ms ih =>
    rw [List.cons_append, List.cons_append] at h
    have h1 := List.chain'_cons.1 h
    exact lt_trans h1.1 (ih m (by rw [List.cons_append]; exact h1.2))

/-- C1: for every input with speed ≥ 0 and time ≥ 0 (any heading and coordinates), both parametric predictors return `0 ≤ percent_complete ≤ 100` and `distance_traveled ≥ 0`, and whenever the geodesic distance from current to target is positive, `percent_complete` is exactly `((total - remaining) / total) * 100` clamped into [0,100] (with `remaining` the geodesic distance from the returned predicted point to the target). -/
theorem C1_parametric_invariants (ctx : GeoCtx)
    (current_long current_lat target_long target_lat direction speed time : ℚ)
    (hs : 0 ≤ speed) (ht : 0 ≤ time) :
    (0 ≤ (predict_future_distance ctx current_long current_lat target_long target_lat direction speed time).2.2.2 ∧
     (predict_future_distance ctx current_long current_lat target_long target_lat direction speed time).2.2.2 ≤ 100 ∧
     0 ≤ (predict_future_distance ctx current_long current_lat target_long target_lat direction speed time).2.2.1) ∧
    (0 ≤ (predict_future_dist_with_dir_and_speed ctx current_long current_lat target_long target_lat direction speed time).2.2.2 ∧
     (predict_future_dist_with_dir_and_speed ctx current_long current_lat target_long target_lat direction speed time).2.2.2 ≤ 100 ∧
     0 ≤ (predict_future_dist_with_dir_and_speed ctx current_long current_lat target_long target_lat direction speed time).2.2.1) ∧
    (0 < ctx.dist current_lat current_long target_lat target_long →
      (predict_future_distance ctx current_long current_lat target_long target_lat direction speed time).2.2.2 =
        max 0 (min 100 (((ctx.dist current_lat current_long target_lat target_long -
          ctx.dist (predict_future_distance ctx current_long current_lat target_long target_lat direction speed time).2.1
            (predict_future_distance ctx current_long current_lat target_long target_lat direction speed time).1
            target_lat target_long) /
          ctx.dist current_lat current_long target_lat target_long) * 100)) ∧
      (predict_future_dist_with_dir_and_speed ctx current_long current_lat target_long target_lat direction speed time).2.2.2 =
        max 0 (min 100 (((ctx.dist current_lat current_long target_lat target_long -
          ctx.dist (predict_future_dist_with_dir_and_speed ctx current_long current_lat target_long target_lat direction speed time).2.1
            (predict_future_dist_with_dir_and_speed ctx current_long current_lat target_long target_lat direction speed time).1
            target_lat target_long) /
          ctx.dist current_lat current_long target_lat target_long) * 100))) := by
  refine ⟨⟨?_, ?_, ?_⟩, ⟨?_, ?_, ?_⟩, fun h => ⟨?_, ?_⟩⟩
  · unfold predict_future_distance
    by_cases h : 0 < ctx.dist current_lat current_long target_lat target_long
    · simp only [h, if_pos]; exact le_max_left _ _
    · simp only [h, if_neg]; norm_num
  · unfold predict_future_distance
    by_cases h : 0 < ctx.dist current_lat current_long target_lat target_long
    · simp only [h, if_pos]; exact max_le (by norm_num) (le_trans (min_le_left _ _) (by norm_num))
    · simp only [h, if_neg]; norm_num
  · exact mul_nonneg (mul_nonneg hs (by norm_num)) ht
  · unfold predict_future_dist_with_dir_and_speed
    by_cases h : 0 < ctx.dist current_lat current_long target_lat target_long
    · simp only [h, if_pos]; exact le_max_left _ _
    · simp only [h, if_neg]; norm_num
  · unfold predict_future_dist_with_dir_and_speed
    by_cases h : 0 < ctx.dist current_lat current_long target_lat target_long
    · simp only [h, if_pos]; exact max_le (by norm_num) (le_trans (min_le_left _ _) (by norm_num))
    · simp only [h, if_neg]; norm_num
  · exact mul_nonneg (div_nonneg (mul_nonneg hs (by norm_num)) (by norm_num)) ht
  · simp only [predict_future_distance, h, if_pos]
  · simp only [predict_future_dist_with_dir_and_speed, h, if_pos]

/-- Witness for C1 at a concrete input (speed 1, time 2, context `ctx0`). -/
theorem C1_witness :
    (0:ℚ) ≤ 1 ∧ (0:ℚ) ≤ 2 ∧
    ((0 ≤ (predict_future_distance ctx0 0 0 0 1 0 1 2).2.2.2 ∧
      (predict_future_distance ctx0 0 0 0 1 0 1 2).2.2.2 ≤ 100 ∧
      0 ≤ (predict_future_distance ctx0 0 0 0 1 0 1 2).2.2.1) ∧
     (0 ≤ (predict_future_dist_with_dir_and_speed ctx0 0 0 0 1 0 1 2).2.2.2 ∧
      (predict_future_dist_with_dir_and_speed ctx0 0 0 0 1 0 1 2).2.2.2 ≤ 100 ∧
      0 ≤ (predict_future_dist_with_dir_and_speed ctx0 0 0 0 1 0 1 2).2.2.1) ∧
     (0 < ctx0.dist 0 0 1 0 →
       (predict_future_distance ctx0 0 0 0 1 0 1 2).2.2.2 =
         max 0 (min 100 (((ctx0.dist 0 0 1 0 -
           ctx0.dist (predict_future_distance ctx0 0 0 0 1 0 1 2).2.1
             (predict_future_distance ctx0 0 0 0 1 0 1 2).1 1 0) /
           ctx0.dist 0 0 1 0) * 100)) ∧
       (predict_future_dist_with_dir_and_speed ctx0 0 0 0 1 0 1 2).2.2.2 =
         max 0 (min 100 (((ctx0.dist 0 0 1 0 -
           ctx0.dist (predict_future_dist_with_dir_and_speed ctx0 0 0 0 1 0 1 2).2.1
             (predict_future_dist_with_dir_and_speed ctx0 0 0 0 1 0 1 2).1 1 0) /
           ctx0.dist 0 0 1 0) * 100)))) :=
  ⟨by norm_num, by norm_num,
   C1_parametric_invariants ctx0 0 0 0 1 0 1 2 (by norm_num) (by norm_num)⟩

/-- C2 counterexample: with a negative time horizon (`time = -1`, `speed = 1`) the parametric predictor does not reject the call — it returns a full `PredictionResult` tuple, whose `distance_traveled` component is `-1000 < 0`.  There is no validation and no `InvalidArgument` path anywhere in the source, so the claim that such calls fail and return no result is false. -/
theorem C2_counterexample :
    predict_future_distance ctx0 0 0 0 1 0 1 (-1) = (0, -1000 / 111111, -1000, 100) ∧
    (predict_future_distance ctx0 0 0 0 1 0 1 (-1)).2.2.1 < 0 := by
  constructor
  · norm_num [predict_future_distance, ctx0]
  · norm_num [predict_future_distance, ctx0]

/-- C2 amended: the parametric predictors perform no validation of `time` or `speed`; a call with `speed > 0` and `time < 0` is accepted and returns a `PredictionResult` whose `distance_traveled` is negative (the code simply multiplies `speed` and `time`). -/
theorem C2_amended_no_rejection (ctx : GeoCtx)
    (current_long current_lat target_long target_lat direction speed time : ℚ)
    (hs : 0 < speed) (ht : time < 0) :
    (predict_future_distance ctx current_long current_lat target_long target_lat direction speed time).2.2.1 < 0 ∧
    (predict_future_dist_with_dir_and_speed ctx current_long current_lat target_long target_lat direction speed time).2.2.1 < 0 := by
  constructor
  · exact mul_neg_of_pos_of_neg (by positivity) ht
  · exact mul_neg_of_pos_of_neg (by positivity) ht

/-- Witness for the amended C2 at speed 1, time -1, context `ctx0`. -/
theorem C2_witness :
    (0:ℚ) < 1 ∧ (-1:ℚ) < 0 ∧
    ((predict_future_distance ctx0 0 0 0 1 0 1 (-1)).2.2.1 < 0 ∧
     (predict_future_dist_with_dir_and_speed ctx0 0 0 0 1 0 1 (-1)).2.2.1 < 0) :=
  ⟨by norm_num, by norm_num,
   C2_amended_no_rejection ctx0 0 0 0 1 0 1 (-1) (by norm_num) (by norm_num)⟩

/-- C3 counterexample: a two-sample track with decreasing timestamps (elapsed = 0 - 10 = -10 < 0) is not rejected: `predict_future_dist_with_history` returns a result (`some ...`), contradicting the claim that every track with elapsed ≤ 0 fails and returns no result. -/
theorem C3_counterexample :
    predict_future_dist_with_history ctx0 [(10, 0, 0), (0, 1, 1)] 5 5 60 = some (1, 1, 0, 100) ∧
    histElapsed [((10:ℚ), (0:ℚ), (0:ℚ)), (0, 1, 1)] < 0 := by
  constructor
  · norm_num [predict_future_dist_with_history, ctx0, bearing, pymod]
  · norm_num [histElapsed]

/-- C3 amended: the history predictor returns no result exactly when the track is empty (Python `IndexError` on `history[0]`) or the elapsed time between the last and first samples is exactly 0 (Python `ZeroDivisionError` in `speed = geodesic(...) / historytime`; this covers every single-sample track).  In either case the failure is an unhandled exception, not a structured `InvalidArgument` error, and a track with strictly negative elapsed time returns an ordinary result with a negative derived speed. -/
theorem C3_amended_failure_iff (ctx : GeoCtx) (history : List HistEntry)
    (target_long target_lat time : ℚ) :
    predict_future_dist_with_history ctx history target_long target_lat time = none ↔
      (history = [] ∨ histElapsed history = 0) := by
  cases history with
  | nil => simp [predict_future_dist_with_history, histElapsed]
  | cons a l =>
    cases hg : (a :: l).getLast? with
    | none => simp at hg
    | some b =>
      simp only [predict_future_dist_with_history, histElapsed, List.head?_cons, hg,
        Option.map_some, Option.getD_some]
      by_cases hz : b.1 - a.1 = 0
      · simp [hz]
      · simp [hz]

/-- C4 counterexample: at latitude 89.99999° (cosine ≈ 1.745e-7, modelled by `ctxPole`), the predictor does not fail with any `NumericDegenerate` error: it returns an ordinary result whose predicted longitude exceeds 50000 degrees.  No near-pole detection or distinct numeric-degeneracy error exists in the source. -/
theorem C4_counterexample :
    predict_future_distance ctxPole 0 (8999999 / 100000) 10 10 90 1 1 =
      (5729578000 / 111111, 8999999 / 100000 + 1000 / 111111, 1000, 100) ∧
    50000 < (predict_future_distance ctxPole 0 (8999999 / 100000) 10 10 90 1 1).1 := by
  constructor
  · norm_num [predict_future_distance, ctxPole]
  · norm_num [predict_future_distance, ctxPole]

/-- C4 amended: none of the three predictor variants guards the division by `cos(radians(current_lat))`: for every latitude (including values arbitrarily close to ±90°) the returned predicted longitude is the unguarded quotient `current_long + distance_traveled * sin(direction) / (111111 * cos(current_lat))`, and the history variant behaves the same whenever it returns at all.  Near the poles this silently produces huge (in float arithmetic: huge but finite) longitude deltas instead of a `NumericDegenerate` error. -/
theorem C4_amended_no_pole_guard (ctx : GeoCtx)
    (current_long current_lat target_long target_lat direction speed time : ℚ)
    (first last : HistEntry) (mid : List HistEntry) (hist_target_long hist_target_lat hist_time : ℚ) :
    (predict_future_distance ctx current_long current_lat target_long target_lat direction speed time).1 =
      current_long + speed * 1000 * time * ctx.sind direction / (111111 * ctx.cosd current_lat) ∧
    (predict_future_dist_with_dir_and_speed ctx current_long current_lat target_long target_lat direction speed time).1 =
      current_long + speed * 1000 / 3600 * time * ctx.sind direction / (111111 * ctx.cosd current_lat) ∧
    (predict_future_dist_with_history ctx (first :: mid ++ [last]) hist_target_long hist_target_lat hist_time).map
        (fun r => r.1) =
      (if last.1 - first.1 = 0 then none else
        some (last.2.2 +
          ctx.dist first.2.1 first.2.2 last.2.1 last.2.2 / (last.1 - first.1) * hist_time *
            ctx.sind (bearing ctx first.2.1 first.2.2 last.2.1 last.2.2) /
            (111111 * ctx.cosd last.2.1))) := by
  refine ⟨rfl, rfl, ?_⟩
  simp only [predict_future_dist_with_history, head_of_sandwich, getLast_of_sandwich]
  by_cases hz : last.1 - first.1 = 0
  · simp [hz]
  · simp [hz]

/-- C5: all three predictor variants project with the single meters-per-degree constant K = 111111 in both the latitude and the longitude term: the predicted `(lat, lon)` of each variant equals `projectSpec` — the spec's `GeoPoint(origin.lat + d*cos(heading)/K, origin.lon + d*sin(heading)/(K*cos(origin.lat)))` — instantiated at K = 111111 with that variant's displacement d. -/
theorem C5_single_projection_constant (ctx : GeoCtx)
    (current_long current_lat target_long target_lat direction speed time : ℚ)
    (first last : HistEntry) (mid : List HistEntry) (hist_target_long hist_target_lat hist_time : ℚ)
    (hs : 0 ≤ speed) (ht : 0 ≤ time) (hne : last.1 - first.1 ≠ 0) :
    ((predict_future_distance ctx current_long current_lat target_long target_lat direction speed time).2.1,
     (predict_future_distance ctx current_long current_lat target_long target_lat direction speed time).1) =
      projectSpec ctx 111111 current_lat current_long direction (speed * 1000 * time) ∧
    ((predict_future_dist_with_dir_and_speed ctx current_long current_lat target_long target_lat direction speed time).2.1,
     (predict_future_dist_with_dir_and_speed ctx current_long current_lat target_long target_lat direction speed time).1) =
      projectSpec ctx 111111 current_lat current_long direction (speed * 1000 / 3600 * time) ∧
    (predict_future_dist_with_history ctx (first :: mid ++ [last]) hist_target_long hist_target_lat hist_time).map
        (fun r => (r.2.1, r.1)) =
      some (projectSpec ctx 111111 last.2.1 last.2.2
        (bearing ctx first.2.1 first.2.2 last.2.1 last.2.2)
        (ctx.dist first.2.1 first.2.2 last.2.1 last.2.2 / (last.1 - first.1) * hist_time)) := by
  refine ⟨rfl, rfl, ?_⟩
  simp only [predict_future_dist_with_history, head_of_sandwich, getLast_of_sandwich]
  simp [hne, projectSpec]

/-- Witness for C5 at concrete inputs and context `ctx0`. -/
theorem C5_witness :
    (0:ℚ) ≤ 1 ∧ (0:ℚ) ≤ 2 ∧ ((1:ℚ), (0:ℚ), (0:ℚ)).1 - ((0:ℚ), (0:ℚ), (0:ℚ)).1 ≠ 0 ∧
    (((predict_future_distance ctx0 0 0 0 1 0 1 2).2.1,
      (predict_future_distance ctx0 0 0 0 1 0 1 2).1) =
       projectSpec ctx0 111111 0 0 0 (1 * 1000 * 2) ∧
     ((predict_future_dist_with_dir_and_speed ctx0 0 0 0 1 0 1 2).2.1,
      (predict_future_dist_with_dir_and_speed ctx0 0 0 0 1 0 1 2).1) =
       projectSpec ctx0 111111 0 0 0 (1 * 1000 / 3600 * 2) ∧
     (predict_future_dist_with_history ctx0 (((0:ℚ), (0:ℚ), (0:ℚ)) :: [] ++ [((1:ℚ), (0:ℚ), (0:ℚ))]) 3 4 5).map
         (fun r => (r.2.1, r.1)) =
       some (projectSpec ctx0 111111 ((1:ℚ), (0:ℚ), (0:ℚ)).2.1 ((1:ℚ), (0:ℚ), (0:ℚ)).2.2
         (bearing ctx0 ((0:ℚ), (0:ℚ), (0:ℚ)).2.1 ((0:ℚ), (0:ℚ), (0:ℚ)).2.2
           ((1:ℚ), (0:ℚ), (0:ℚ)).2.1 ((1:ℚ), (0:ℚ), (0:ℚ)).2.2)
         (ctx0.dist ((0:ℚ), (0:ℚ), (0:ℚ)).2.1 ((0:ℚ), (0:ℚ), (0:ℚ)).2.2
             ((1:ℚ), (0:ℚ), (0:ℚ)).2.1 ((1:ℚ), (0:ℚ), (0:ℚ)).2.2 /
           (((1:ℚ), (0:ℚ), (0:ℚ)).1 - ((0:ℚ), (0:ℚ), (0:ℚ)).1) * 5))) :=
  ⟨by norm_num, by norm_num, by norm_num,
   C5_single_projection_constant ctx0 0 0 0 1 0 1 2 (0, 0, 0) (1, 0, 0) [] 3 4 5
     (by norm_num) (by norm_num) (by norm_num)⟩

/-- C6: on a track of ≥ 2 samples with strictly increasing timestamps, the history predictor returns exactly the shared projection/percent pipeline (`predictFromDistance`) applied at `current = track.last.point`, `heading = bearing(track.first.point, track.last.point)`, and displacement `speed * time` with `speed = geodesic(first, last) / elapsed` exactly; both parametric predictors are that same pipeline with their own displacement, so history mode delegates to the same projection and percent-complete computation. -/
theorem C6_history_endpoint_derivation (ctx : GeoCtx)
    (first last : HistEntry) (mid : List HistEntry) (target_long target_lat time : ℚ)
    (current_long current_lat t_lon t_lat direction speed t2 : ℚ)
    (hmono : List.Chain' (fun a b : HistEntry => a.1 < b.1) (first :: mid ++ [last])) :
    predict_future_dist_with_history ctx (first :: mid ++ [last]) target_long target_lat time =
      some (predictFromDistance ctx last.2.2 last.2.1 target_long target_lat
        (bearing ctx first.2.1 first.2.2 last.2.1 last.2.2)
        (ctx.dist first.2.1 first.2.2 last.2.1 last.2.2 / (last.1 - first.1) * time)) ∧
    predict_future_distance ctx current_long current_lat t_lon t_lat direction speed t2 =
      predictFromDistance ctx current_long current_lat t_lon t_lat direction (speed * 1000 * t2) ∧
    predict_future_dist_with_dir_and_speed ctx current_long current_lat t_lon t_lat direction speed t2 =
      predictFromDistance ctx current_long current_lat t_lon t_lat direction (speed * 1000 / 3600 * t2) := by
  have hne : last.1 - first.1 ≠ 0 :=
    sub_ne_zero.2 (ne_of_gt (chain_head_lt_last first last mid hmono))
  refine ⟨?_, rfl, rfl⟩
  simp only [predict_future_dist_with_history, head_of_sandwich, getLast_of_sandwich]
  simp [hne, predictFromDistance]

/-- Witness for C6 on a concrete two-sample northbound track. -/
theorem C6_witness :
    List.Chain' (fun a b : HistEntry => a.1 < b.1)
      (((0:ℚ), (37:ℚ), (-122:ℚ)) :: [] ++ [((100:ℚ), (37001/1000:ℚ), (-122:ℚ))]) ∧
    (predict_future_dist_with_history ctx0
        (((0:ℚ), (37:ℚ), (-122:ℚ)) :: [] ++ [((100:ℚ), (37001/1000:ℚ), (-122:ℚ))]) 6 7 50 =
      some (predictFromDistance ctx0 ((100:ℚ), (37001/1000:ℚ), (-122:ℚ)).2.2
        ((100:ℚ), (37001/1000:ℚ), (-122:ℚ)).2.1 6 7
        (bearing ctx0 ((0:ℚ), (37:ℚ), (-122:ℚ)).2.1 ((0:ℚ), (37:ℚ), (-122:ℚ)).2.2
          ((100:ℚ), (37001/1000:ℚ), (-122:ℚ)).2.1 ((100:ℚ), (37001/1000:ℚ), (-122:ℚ)).2.2)
        (ctx0.dist ((0:ℚ), (37:ℚ), (-122:ℚ)).2.1 ((0:ℚ), (37:ℚ), (-122:ℚ)).2.2
            ((100:ℚ), (37001/1000:ℚ), (-122:ℚ)).2.1 ((100:ℚ), (37001/1000:ℚ), (-122:ℚ)).2.2 /
          (((100:ℚ), (37001/1000:ℚ), (-122:ℚ)).1 - ((0:ℚ), (37:ℚ), (-122:ℚ)).1) * 50)) ∧
     predict_future_distance ctx0 0 0 0 1 0 1 2 =
       predictFromDistance ctx0 0 0 0 1 0 (1 * 1000 * 2) ∧
     predict_future_dist_with_dir_and_speed ctx0 0 0 0 1 0 1 2 =
       predictFromDistance ctx0 0 0 0 1 0 (1 * 1000 / 3600 * 2)) :=
  ⟨by simp [List.chain'_cons],
   C6_history_endpoint_derivation ctx0 (0, 37, -122) (100, 37001/1000, -122) [] 6 7 50
     0 0 0 1 0 1 2 (by simp [List.chain'_cons])⟩

/-- C7: with `time = 0` (or with `speed = 0` at any time), both parametric predictors return the current position unchanged, `distance_traveled = 0`, and a `percent_complete` that depends only on the current position relative to the target: 0 when the current-to-target geodesic distance is positive, 100 otherwise. -/
theorem C7_zero_time_or_speed (ctx : GeoCtx)
    (current_long current_lat target_long target_lat direction speed time : ℚ)
    (h : time = 0 ∨ speed = 0) :
    predict_future_distance ctx current_long current_lat target_long target_lat direction speed time =
      (current_long, current_lat, 0,
        if 0 < ctx.dist current_lat current_long target_lat target_long then 0 else 100) ∧
    predict_future_dist_with_dir_and_speed ctx current_long current_lat target_long target_lat direction speed time =
      (current_long, current_lat, 0,
        if 0 < ctx.dist current_lat current_long target_lat target_long then 0 else 100) := by
  rcases h with h | h <;> subst h <;>
    constructor <;>
    simp [predict_future_distance, predict_future_dist_with_dir_and_speed]

/-- Witness for C7 at `speed = 0`, context `ctx0`. -/
theorem C7_witness :
    ((2:ℚ) = 0 ∨ (0:ℚ) = 0) ∧
    (predict_future_distance ctx0 3 4 5 6 7 0 2 =
       (3, 4, 0, if 0 < ctx0.dist 4 3 6 5 then 0 else 100) ∧
     predict_future_dist_with_dir_and_speed ctx0 3 4 5 6 7 0 2 =
       (3, 4, 0, if 0 < ctx0.dist 4 3 6 5 then 0 else 100)) :=
  ⟨Or.inr rfl, C7_zero_time_or_speed ctx0 3 4 5 6 7 0 2 (Or.inr rfl)⟩

/-- C8: when the current position equals the target position — so the geodesic total distance is 0, using that the distance provider returns 0 on identical points — both parametric predictors return `percent_complete = 100` for any heading, speed ≥ 0 and time ≥ 0, regardless of where the predicted point lands. -/
theorem C8_at_target_percent_100 (ctx : GeoCtx)
    (current_long current_lat direction speed time : ℚ)
    (hdist : ∀ la lo : ℚ, ctx.dist la lo la lo = 0) (hs : 0 ≤ speed) (ht : 0 ≤ time) :
    (predict_future_distance ctx current_long current_lat current_long current_lat direction speed time).2.2.2 = 100 ∧
    (predict_future_dist_with_dir_and_speed ctx current_long current_lat current_long current_lat direction speed time).2.2.2 = 100 := by
  constructor <;>
    simp [predict_future_distance, predict_future_dist_with_dir_and_speed, hdist]

/-- Witness for C8 at a concrete input with current = target. -/
theorem C8_witness :
    (∀ la lo : ℚ, ctx0.dist la lo la lo = 0) ∧ (0:ℚ) ≤ 1 ∧ (0:ℚ) ≤ 2 ∧
    ((predict_future_distance ctx0 3 4 3 4 7 1 2).2.2.2 = 100 ∧
     (predict_future_dist_with_dir_and_speed ctx0 3 4 3 4 7 1 2).2.2.2 = 100) :=
  ⟨fun _ _ => rfl, by norm_num, by norm_num,
   C8_at_target_percent_100 ctx0 3 4 7 1 2 (fun _ _ => rfl) (by norm_num) (by norm_num)⟩

/-- C9: the history predictor's output on any track `first :: mid ++ [last]` equals its output on the two-element track `[first, last]`: the intermediate samples have no effect on any component of the result (the source reads only `history[0]` and `history[-1]`). -/
theorem C9_only_endpoints_matter (ctx : GeoCtx) (first last : HistEntry) (mid : List HistEntry)
    (target_long target_lat time : ℚ) :
    predict_future_dist_with_history ctx (first :: mid ++ [last]) target_long target_lat time =
      predict_future_dist_with_history ctx [first, last] target_long target_lat time := by
  simp only [predict_future_dist_with_history, head_of_sandwich, getLast_of_sandwich]
  rfl

/-- C10: `predict_future_distance` at speed `s` (km/s) returns exactly the same tuple as `predict_future_dist_with_dir_and_speed` at speed `3600 * s` (km/h): the two parametric variants are the same pipeline up to the speed-unit conversion factor, since `(3600*s*1000)/3600 = s*1000` exactly over ℚ. -/
theorem C10_speed_unit_equivalence (ctx : GeoCtx)
    (current_long current_lat target_long target_lat direction speed time : ℚ)
    (ht : 0 ≤ time) :
    predict_future_distance ctx current_long current_lat target_long target_lat direction speed time =
      predict_future_dist_with_dir_and_speed ctx current_long current_lat target_long target_lat direction
        (3600 * speed) time := by
  have hd : 3600 * speed * 1000 / 3600 = speed * 1000 := by ring
  simp only [predict_future_distance, predict_future_dist_with_dir_and_speed, hd]

/-- Witness for C10 at speed 1 km/s versus 3600 km/h. -/
theorem C10_witness :
    (0:ℚ) ≤ 2 ∧
    predict_future_distance ctx0 0 0 0 1 0 1 2 =
      predict_future_dist_with_dir_and_speed ctx0 0 0 0 1 0 (3600 * 1) 2 :=
  ⟨by norm_num, C10_speed_unit_equivalence ctx0 0 0 0 1 0 1 2 (by norm_num)⟩
